import Mathlib

/-!
Shallow embedding of `webhook.py` (a TradingView → Coinbase webhook order
relay) and proofs about its alert-intake pipeline.

Conventions of the embedding:
* Python floats are modelled as `ℚ`; `float(s)` is modelled by `pyFloat`,
  which covers the finite decimal fragment of Python's grammar (optional
  sign, digits, decimal point, exponent).  `inf`/`nan`/digit underscores
  are outside the model.
* The sqlite database is the explicit state `DB` (the `alerts` table and
  the single `last_order_ts` row of the `meta` table).
* The HTTP transport underneath `requests.post` is an oracle `Transport`:
  either an exception (timeout / connection refused) or a response with a
  status code, an optional JSON decoding and a raw text.
* Python exceptions that escape a function are `Except.error` values.
* Side effects (alert inserts, checkpoint writes, outbound exchange calls)
  are additionally recorded in an explicit `Effect` list.
-/

namespace Webhook

/-- JSON values, as produced by `flask.jsonify` / stored exchange responses. -/
inductive J : Type where
  | str : String → J
  | num : ℚ → J
  | bool : Bool → J
  | nul : J
  | arr : List J → J
  | obj : List (String × J) → J

/-- Network-level failures of the HTTP transport (`requests` exceptions). -/
inductive NetErr : Type where
  | timeout : NetErr
  | connRefused : NetErr
deriving DecidableEq, Repr

/-- Behaviour of the HTTP transport for the single outbound POST:
either it raises a network exception, or it yields a response with a
status code, the result of attempting to JSON-decode the body
(`none` = not valid JSON), and the raw body text. -/
inductive Transport : Type where
  | exn : NetErr → Transport
  | resp : ℕ → Option J → String → Transport

/-- Exceptions that can escape `place_market_order_by_funds`:
a `binascii.Error` from base64-decoding the API secret inside
`cb_auth_headers`, or a network exception from `requests.post`. -/
inductive PlaceErr : Type where
  | badBase64Secret : PlaceErr
  | net : NetErr → PlaceErr
deriving DecidableEq, Repr

/-- One row of the `alerts` table (`insert_alert`'s columns, minus the
auto-increment id and timestamp, which no property depends on).
`response` keeps the structured value that `json.dumps` serialises. -/
structure AlertRecord : Type where
  tv_id : Option String
  raw : String
  symbol : String
  action : String
  amount : ℚ
  status : String
  response : J

/-- The sqlite state: the append-only `alerts` table and the single
`last_order_ts` row of the `meta` table (`none` = row absent). -/
structure DB : Type where
  alerts : List AlertRecord
  meta : Option String

/-- Environment configuration (module-level constants in `webhook.py`). -/
structure Config : Type where
  alert_secret : String
  max_usd_per_order : ℚ
  min_seconds_between_orders : ℕ
  api_key : String
  api_secret : String
  passphrase : String
deriving DecidableEq, Repr

/-- Observable side effects of one request, in program order. -/
inductive Effect : Type where
  | call : String → String → ℚ → Effect      -- product_id, side, rounded funds
  | insert : AlertRecord → Effect            -- `insert_alert`
  | checkpoint : String → Effect             -- `set_last_order_ts` stored value

/-! ### Python dict on string keys (insertion order, assignment overwrites) -/

/-- `m[k] = v` on a Python dict represented as an insertion-ordered
association list: overwrite in place if the key exists, else append. -/
def pyDictSet (m : List (String × String)) (k v : String) :
    List (String × String) :=
  if m.any (fun p => p.1 = k) then
    m.map (fun p => if p.1 = k then (k, v) else p)
  else
    m ++ [(k, v)]

/-- `m.get(k)` on the dict representation (keys are unique by construction). -/
def dget (m : List (String × String)) (k : String) : Option String :=
  (m.find? (fun p => p.1 = k)).map (fun p => p.2)

/-- `m.get(k, d)`. -/
def dgetD (m : List (String × String)) (k d : String) : String :=
  (dget m k).getD d

/-! ### Python string primitives (structural, over `List Char`) -/

/-- Python's `str.strip` whitespace set (ASCII part). -/
def pyIsSpace (c : Char) : Bool :=
  c = ' ' || c = '\t' || c = '\n' || c = '\r' || c = '\x0b' || c = '\x0c'

/-- `str.strip()`. -/
def pyStrip (cs : List Char) : List Char :=
  ((cs.dropWhile pyIsSpace).reverse.dropWhile pyIsSpace).reverse

/-- `str.strip()` at the string level. -/
def pyStripS (s : String) : String := String.mk (pyStrip s.data)

/-- `str.lower()` on one character (ASCII). -/
def pyLowerChar (c : Char) : Char :=
  if 'A' ≤ c ∧ c ≤ 'Z' then Char.ofNat (c.toNat + 32) else c

/-- `str.upper()` on one character (ASCII). -/
def pyUpperChar (c : Char) : Char :=
  if 'a' ≤ c ∧ c ≤ 'z' then Char.ofNat (c.toNat - 32) else c

/-- `str.upper()` at the string level. -/
def pyUpperS (s : String) : String := String.mk (s.data.map pyUpperChar)

/-- `txt.split(sep)` for a one-character separator (Python semantics:
`"".split(";") == [""]`, empty segments kept). -/
def splitChar (sep : Char) : List Char → List (List Char)
  | [] => [[]]
  | a :: rest =>
      let r := splitChar sep rest
      if a = sep then [] :: r
      else
        match r with
        | [] => [[a]]
        | h :: t => (a :: h) :: t

/-- `p.split(sep, 1)` when `sep in p`, else `none` (which models the
`":" in p` membership test together with the maxsplit-1 split). -/
def splitFirst (sep : Char) : List Char → Option (List Char × List Char)
  | [] => none
  | a :: rest =>
      if a = sep then some ([], rest)
      else (splitFirst sep rest).map (fun p => (a :: p.1, p.2))

/-- `cs.startswith(pre)`. -/
def pyStartsWith : List Char → List Char → Bool
  | [], _ => true
  | _ :: _, [] => false
  | a :: ps, b :: cs => if a = b then pyStartsWith ps cs else false

/-! ### parse_alert_text -/

/-- `parse_alert_text`: split the text on `;`; each segment containing
`:` is split on the first `:`; the key is stripped and lower-cased, the
value stripped; segments without `:` are dropped.  Total, hence the
Python function never raises. -/
def parse_alert_text (txt : String) : List (String × String) :=
  (splitChar ';' txt.data).foldl
    (fun m p =>
      match splitFirst ':' p with
      | none => m
      | some (k, v) =>
          pyDictSet m (String.mk ((pyStrip k).map pyLowerChar))
            (String.mk (pyStrip v)))
    []

/-! ### Python float() on the finite-decimal fragment -/

/-- Digits of a character list prefix, as a value/length pair. -/
def digitsVal : List Char → Option (ℕ × ℕ)
  | [] => none
  | c :: cs =>
      if c.isDigit then
        match digitsVal cs with
        | none => some (c.toNat - 48, 1)
        | some (v, n) => some ((c.toNat - 48) * 10 ^ n + v, n + 1)
      else none

/-- Split a leading run of digits from a character list. -/
def spanDigits (cs : List Char) : List Char × List Char :=
  (cs.takeWhile Char.isDigit, cs.dropWhile Char.isDigit)

/-- Value of a digit string (`none` if empty or non-digits present). -/
def digitStrVal (cs : List Char) : Option ℕ :=
  if cs = [] then none
  else if cs.all Char.isDigit then
    some (cs.foldl (fun a c => a * 10 + (c.toNat - 48)) 0)
  else none

/-- Parse an optional sign, returning the sign as `1` or `-1`. -/
def pySign : List Char → ℤ × List Char
  | '+' :: cs => (1, cs)
  | '-' :: cs => (-1, cs)
  | cs => (1, cs)

/-- Parse the exponent part `e[sign]digits` (already past the `e`). -/
def pyExp (cs : List Char) : Option ℤ :=
  let (s, cs) := pySign cs
  match digitStrVal cs with
  | some v => some (s * v)
  | none => none

/-- Mantissa `digits[.digits]` with at least one digit overall, returning
(integer value of all digits, number of fraction digits, rest). -/
def pyMantissa (cs : List Char) : Option (ℕ × ℕ × List Char) :=
  let (ip, cs₁) := spanDigits cs
  match cs₁ with
  | '.' :: cs₂ =>
      let (fp, cs₃) := spanDigits cs₂
      if ip = [] ∧ fp = [] then none
      else
        some ((ip ++ fp).foldl (fun a c => a * 10 + (c.toNat - 48)) 0,
              fp.length, cs₃)
  | _ =>
      if ip = [] then none
      else some (ip.foldl (fun a c => a * 10 + (c.toNat - 48)) 0, 0, cs₁)

/-- Model of Python `float(s)` on the finite decimal fragment: optional
surrounding whitespace, optional sign, `digits[.digits]` or `.digits`,
optional `e`/`E` exponent.  (`inf`, `nan` and digit underscores are not
modelled.)  `none` models `float` raising `ValueError`. -/
def pyFloat (s : String) : Option ℚ :=
  let cs := pyStrip s.data
  let (sg, cs) := pySign cs
  match pyMantissa cs with
  | none => none
  | some (m, fl, rest) =>
      match rest with
      | [] => some ((sg * m : ℤ) / (10 ^ fl : ℕ))
      | 'e' :: cs' =>
          (pyExp cs').map (fun e =>
            ((sg * m : ℤ) / (10 ^ fl : ℕ)) * (10 : ℚ) ^ (e : ℤ))
      | 'E' :: cs' =>
          (pyExp cs').map (fun e =>
            ((sg * m : ℤ) / (10 ^ fl : ℕ)) * (10 : ℚ) ^ (e : ℤ))
      | _ => none

/-! ### UTF-8 encoding (Python `str.encode("utf-8")`) -/

/-- UTF-8 bytes of one code point. -/
def utf8Char (n : ℕ) : List ℕ :=
  if n < 0x80 then [n]
  else if n < 0x800 then
    [0xC0 ||| (n >>> 6), 0x80 ||| (n &&& 0x3F)]
  else if n < 0x10000 then
    [0xE0 ||| (n >>> 12), 0x80 ||| ((n >>> 6) &&& 0x3F), 0x80 ||| (n &&& 0x3F)]
  else
    [0xF0 ||| (n >>> 18), 0x80 ||| ((n >>> 12) &&& 0x3F),
     0x80 ||| ((n >>> 6) &&& 0x3F), 0x80 ||| (n &&& 0x3F)]

/-- UTF-8 byte sequence of a string. -/
def utf8Encode (s : String) : List ℕ :=
  (s.data.map (fun c => utf8Char c.toNat)).flatten

/-! ### SHA-256 over byte lists (bytes and words as `ℕ` mod `2^8`/`2^32`) -/

/-- Truncate to a 32-bit word. -/
def w32 (n : ℕ) : ℕ := n % 4294967296

/-- Bitwise complement on 32-bit words. -/
def not32 (x : ℕ) : ℕ := Nat.xor x 4294967295

/-- Rotate a 32-bit word right by `n` bits. -/
def rotr (n x : ℕ) : ℕ := w32 ((x >>> n) ||| (x <<< (32 - n)))

def sha_ch (x y z : ℕ) : ℕ := Nat.xor (x &&& y) (not32 x &&& z)
def sha_maj (x y z : ℕ) : ℕ := Nat.xor (Nat.xor (x &&& y) (x &&& z)) (y &&& z)
def bsig0 (x : ℕ) : ℕ := Nat.xor (Nat.xor (rotr 2 x) (rotr 13 x)) (rotr 22 x)
def bsig1 (x : ℕ) : ℕ := Nat.xor (Nat.xor (rotr 6 x) (rotr 11 x)) (rotr 25 x)
def ssig0 (x : ℕ) : ℕ := Nat.xor (Nat.xor (rotr 7 x) (rotr 18 x)) (x >>> 3)
def ssig1 (x : ℕ) : ℕ := Nat.xor (Nat.xor (rotr 17 x) (rotr 19 x)) (x >>> 10)

/-- The 64 round constants of SHA-256 (FIPS 180-4, in decimal). -/
def shaK : List ℕ :=
  [1116352408, 1899447441, 3049323471, 3921009573, 961987163,
   1508970993, 2453635748, 2870763221, 3624381080, 310598401,
   607225278, 1426881987, 1925078388, 2162078206, 2614888103,
   3248222580, 3835390401, 4022224774, 264347078, 604807628,
   770255983, 1249150122, 1555081692, 1996064986, 2554220882,
   2821834349, 2952996808, 3210313671, 3336571891, 3584528711,
   113926993, 338241895, 666307205, 773529912, 1294757372,
   1396182291, 1695183700, 1986661051, 2177026350, 2456956037,
   2730485921, 2820302411, 3259730800, 3345764771, 3516065817,
   3600352804, 4094571909, 275423344, 430227734, 506948616,
   659060556, 883997877, 958139571, 1322822218, 1537002063,
   1747873779, 1955562222, 2024104815, 2227730452, 2361852424,
   2428436474, 2756734187, 3204031479, 3329325298]

/-- The initial hash value of SHA-256 (FIPS 180-4, in decimal). -/
def shaH0 : List ℕ :=
  [1779033703, 3144134277, 1013904242, 2773480762,
   1359893119, 2600822924, 528734635, 1541459225]

/-- Big-endian 8-byte encoding of a natural number. -/
def be8 (n : ℕ) : List ℕ :=
  (List.range 8).map (fun i => (n >>> (8 * (7 - i))) % 256)

/-- SHA-256 message padding: `0x80`, zeros to 56 mod 64, 8-byte bit length. -/
def sha256pad (msg : List ℕ) : List ℕ :=
  let L := msg.length
  let k := (64 + 55 - L % 64) % 64
  msg ++ 0x80 :: List.replicate k 0 ++ be8 (8 * L)

/-- Split a byte list into 64-byte blocks (structural recursion on a
fuel bound, so the kernel can evaluate it). -/
def chunk64Go : ℕ → List ℕ → List (List ℕ)
  | 0, _ => []
  | _, [] => []
  | fuel + 1, b :: rest => ((b :: rest).take 64) :: chunk64Go fuel ((b :: rest).drop 64)

/-- Split a byte list into 64-byte blocks. -/
def chunk64 (l : List ℕ) : List (List ℕ) := chunk64Go l.length l

/-- Combine bytes into big-endian 32-bit words. -/
def bytesToWords : List ℕ → List ℕ
  | a :: b :: c :: d :: rest =>
      (((a * 256 + b) * 256 + c) * 256 + d) :: bytesToWords rest
  | _ => []

/-- Expand 16 message words into the 64-entry message schedule. -/
def buildW (ws : List ℕ) : List ℕ :=
  (List.range 64).foldl
    (fun acc t =>
      if t < 16 then acc ++ [ws.getD t 0]
      else acc ++ [w32 (ssig1 (acc.getD (t - 2) 0) + acc.getD (t - 7) 0 +
                        ssig0 (acc.getD (t - 15) 0) + acc.getD (t - 16) 0)])
    []

/-- Working state of the SHA-256 compression function. -/
structure ShaState : Type where
  a : ℕ
  b : ℕ
  c : ℕ
  d : ℕ
  e : ℕ
  f : ℕ
  g : ℕ
  hh : ℕ

/-- One round of the SHA-256 compression function. -/
def shaRound (s : ShaState) (kt wt : ℕ) : ShaState :=
  let t1 := w32 (s.hh + bsig1 s.e + sha_ch s.e s.f s.g + kt + wt)
  let t2 := w32 (bsig0 s.a + sha_maj s.a s.b s.c)
  ⟨w32 (t1 + t2), s.a, s.b, s.c, w32 (s.d + t1), s.e, s.f, s.g⟩

/-- Compress one 512-bit block into the running hash. -/
def shaCompress (h : List ℕ) (block : List ℕ) : List ℕ :=
  let w := buildW (bytesToWords block)
  let init : ShaState :=
    ⟨h.getD 0 0, h.getD 1 0, h.getD 2 0, h.getD 3 0,
     h.getD 4 0, h.getD 5 0, h.getD 6 0, h.getD 7 0⟩
  let s := (w.zip shaK).foldl (fun st p => shaRound st p.2 p.1) init
  [w32 (h.getD 0 0 + s.a), w32 (h.getD 1 0 + s.b), w32 (h.getD 2 0 + s.c),
   w32 (h.getD 3 0 + s.d), w32 (h.getD 4 0 + s.e), w32 (h.getD 5 0 + s.f),
   w32 (h.getD 6 0 + s.g), w32 (h.getD 7 0 + s.hh)]

/-- SHA-256 digest (32 bytes) of a byte list. -/
def sha256 (msg : List ℕ) : List ℕ :=
  let hs := (chunk64 (sha256pad msg)).foldl shaCompress shaH0
  (hs.map (fun w => [(w >>> 24) % 256, (w >>> 16) % 256, (w >>> 8) % 256, w % 256])).flatten

/-- HMAC-SHA256 (`hmac.new(key, msg, hashlib.sha256).digest()`). -/
def hmacSha256 (key msg : List ℕ) : List ℕ :=
  let k0 := if 64 < key.length then sha256 key else key
  let kp := k0 ++ List.replicate (64 - k0.length) 0
  sha256 ((kp.map (fun b => Nat.xor b 0x5c)) ++
          sha256 ((kp.map (fun b => Nat.xor b 0x36)) ++ msg))

/-! ### Base64 (Python `base64.b64encode` / `b64decode`) -/

/-- Character of a 6-bit value in the standard base64 alphabet. -/
def b64Char (n : ℕ) : Char :=
  if n < 26 then Char.ofNat (65 + n)
  else if n < 52 then Char.ofNat (97 + (n - 26))
  else if n < 62 then Char.ofNat (48 + (n - 52))
  else if n = 62 then '+' else '/'

/-- 6-bit value of a standard-alphabet character, `none` otherwise. -/
def b64Val (c : Char) : Option ℕ :=
  if 'A' ≤ c ∧ c ≤ 'Z' then some (c.toNat - 65)
  else if 'a' ≤ c ∧ c ≤ 'z' then some (c.toNat - 97 + 26)
  else if '0' ≤ c ∧ c ≤ '9' then some (c.toNat - 48 + 52)
  else if c = '+' then some 62
  else if c = '/' then some 63
  else none

/-- Base64-encode a byte list (with `=` padding). -/
def b64encodeCore : List ℕ → List Char
  | [] => []
  | [a] => [b64Char (a >>> 2), b64Char ((a &&& 3) <<< 4), '=', '=']
  | [a, b] => [b64Char (a >>> 2), b64Char (((a &&& 3) <<< 4) ||| (b >>> 4)),
               b64Char ((b &&& 15) <<< 2), '=']
  | a :: b :: c :: rest =>
      b64Char (a >>> 2) :: b64Char (((a &&& 3) <<< 4) ||| (b >>> 4)) ::
      b64Char (((b &&& 15) <<< 2) ||| (c >>> 6)) :: b64Char (c &&& 63) ::
      b64encodeCore rest

/-- `base64.b64encode(..).decode()`. -/
def b64encode (bs : List ℕ) : String := String.mk (b64encodeCore bs)

/-- Decode base64 groups of four characters; padding only in the final
group; any other arrangement raises (`none`). -/
def b64decodeCore : List Char → Option (List ℕ)
  | [] => some []
  | [c1, c2, '=', '='] => do
      let v1 ← b64Val c1
      let v2 ← b64Val c2
      pure [((v1 <<< 2) ||| (v2 >>> 4)) % 256]
  | [c1, c2, c3, '='] => do
      let v1 ← b64Val c1
      let v2 ← b64Val c2
      let v3 ← b64Val c3
      pure [((v1 <<< 2) ||| (v2 >>> 4)) % 256, (((v2 &&& 15) <<< 4) ||| (v3 >>> 2)) % 256]
  | c1 :: c2 :: c3 :: c4 :: rest => do
      let v1 ← b64Val c1
      let v2 ← b64Val c2
      let v3 ← b64Val c3
      let v4 ← b64Val c4
      let tail ← b64decodeCore rest
      pure (((v1 <<< 2) ||| (v2 >>> 4)) % 256 ::
            ((((v2 &&& 15) <<< 4)) ||| (v3 >>> 2)) % 256 ::
            ((((v3 &&& 3) <<< 6)) ||| v4) % 256 :: tail)
  | _ => none

/-- Python `base64.b64decode` with `validate=False`: characters outside
the alphabet and `=` are discarded first; then the length must be a
multiple of 4 with well-placed padding, else `binascii.Error` (`none`). -/
def b64decode (s : String) : Option (List ℕ) :=
  b64decodeCore (s.data.filter (fun c => (b64Val c).isSome || c = '='))

/-! ### Numeric rendering helpers (Python `round`, `str`, `int`) -/

/-- Round a rational to the nearest integer, ties to even (the rounding
of Python's built-in `round`). -/
def roundHalfEven (x : ℚ) : ℤ :=
  let f := ⌊x⌋
  let r := x - f
  if r < 1 / 2 then f
  else if 1 / 2 < r then f + 1
  else if f % 2 = 0 then f else f + 1

/-- `round(x, 2)`. -/
def pyRound2 (q : ℚ) : ℚ := (roundHalfEven (q * 100) : ℤ) / 100

/-- Left-pad a string with zeros to length `k`. -/
def padZeros (s : String) (k : ℕ) : String :=
  String.mk (List.replicate (k - s.length) '0') ++ s

/-- Smallest number of decimal places representing `q` exactly, if ≤ 27. -/
def decDigits (q : ℚ) : Option ℕ :=
  (List.range 28).find? (fun k => (q * 10 ^ k).den = 1)

/-- Modelled rendering of Python `str` on a float value: exact decimal
with a fractional part (so integers render as `n.0`), falling back to
`num/den` for non-terminating rationals.  No verified property observes
this spelling (the checkpoint value is only ever read back through
`pyFloat`, and the order body only feeds the signature). -/
def pyFloatStr (q : ℚ) : String :=
  match decDigits q with
  | some 0 => toString q.num ++ ".0"
  | some k =>
      let n := (q * 10 ^ k).num
      let sign := if n < 0 then "-" else ""
      let a := n.natAbs
      sign ++ toString (a / 10 ^ k) ++ "." ++ padZeros (toString (a % 10 ^ k)) k
  | none => toString q.num ++ "/" ++ toString q.den

/-- `str(round(usd_amount, 2))`, the order's `funds` field. -/
def fundsStr (usd : ℚ) : String := pyFloatStr (pyRound2 usd)

/-- `str(int(time.time()))`: the signing timestamp (truncation and floor
agree on the nonnegative clock values in scope). -/
def pyIntStr (q : ℚ) : String := toString ⌊q⌋

/-! ### AuditStore operations -/

/-- `get_last_order_ts`: read the `last_order_ts` meta row; an absent row
or a value that does not parse as a float yields `0.0`. -/
def get_last_order_ts (db : DB) : ℚ :=
  match db.meta with
  | none => 0
  | some v =>
      match pyFloat v with
      | some x => x
      | none => 0

/-- `set_last_order_ts`: upsert the `last_order_ts` meta row with `str(ts)`. -/
def set_last_order_ts (db : DB) (ts : ℚ) : DB :=
  { db with meta := some (pyFloatStr ts) }

/-- `insert_alert`: append one row to the `alerts` table. -/
def insert_alert (db : DB) (r : AlertRecord) : DB :=
  { db with alerts := db.alerts ++ [r] }

/-- `already_processed`: `False` on a falsy id (`None` or `""`), else
whether some `alerts` row has this `tv_id`. -/
def already_processed (db : DB) (tv_id : Option String) : Bool :=
  match tv_id with
  | none => false
  | some t => if t = "" then false else db.alerts.any (fun r => r.tv_id = some t)

/-! ### The webhook handler's helpers -/

/-- Python truthiness chain `a or b` on optional strings (`None` and
`""` are falsy). -/
def pyOr (a b : Option String) : Option String :=
  match a with
  | some s => if s = "" then b else some s
  | none => b

/-- `data.get("tv_id") or data.get("id") or None`. -/
def resolveTvId (data : List (String × String)) : Option String :=
  pyOr (dget data "tv_id") (pyOr (dget data "id") none)

/-- Python falsiness of an optional string. -/
def pyFalsy : Option String → Bool
  | none => true
  | some s => s = ""

/-- Truthiness of the optional idempotency id (`if tv_id and ...`). -/
def pyTruthyOpt (o : Option String) : Bool := !(pyFalsy o)

/-! ### ExchangeSigner -/

/-- `cb_auth_headers`: the Coinbase Exchange signing headers.  The
timestamp `str(int(time.time()))` is passed in as `tsStr`.  `none`
models the `binascii.Error` raised when the configured API secret is not
valid base64. -/
def cb_auth_headers (cfg : Config) (tsStr : String) (method path body : String) :
    Option (List (String × String)) :=
  let message := tsStr ++ pyUpperS method ++ path ++ body
  match b64decode cfg.api_secret with
  | none => none
  | some secret =>
      some [("CB-ACCESS-KEY", cfg.api_key),
            ("CB-ACCESS-SIGN", b64encode (hmacSha256 secret (utf8Encode message))),
            ("CB-ACCESS-TIMESTAMP", tsStr),
            ("CB-ACCESS-PASSPHRASE", cfg.passphrase),
            ("Content-Type", "application/json")]

/-! ### OrderGateway -/

/-- An exchange response body: the JSON decoding when `r.json()`
succeeds, else the raw text. -/
inductive RB : Type where
  | json : J → RB
  | text : String → RB

/-- The structured value a response body denotes when placed inside a
`jsonify` reply. -/
def rbToJ : RB → J
  | .json j => j
  | .text s => .str s

/-- `json.dumps({"type": "market", "side": side, "product_id":
product_id, "funds": funds})` (insertion order, default separators). -/
def orderBody (product_id side funds : String) : String :=
  "\x7b\"type\": \"market\", \"side\": \"" ++ side ++
  "\", \"product_id\": \"" ++ product_id ++
  "\", \"funds\": \"" ++ funds ++ "\"\x7d"

/-- `place_market_order_by_funds`: build the funds-denominated market
order, sign it, POST it.  Only `r.json()` is inside a `try`, so a
network-level exception from `requests.post` (and the `binascii.Error`
from a bad API secret, raised while signing, before any network call)
propagates: both are `Except.error`.  Also returns the outbound-call
effects (empty when signing raised before the POST). -/
def place_market_order_by_funds (cfg : Config) (transport : Transport)
    (tsStr : String) (product_id side : String) (usd_amount : ℚ) :
    Except PlaceErr (ℕ × RB) × List Effect :=
  let body := orderBody product_id side (fundsStr usd_amount)
  match cb_auth_headers cfg tsStr "POST" "/orders" body with
  | none => (.error .badBase64Secret, [])
  | some _headers =>
      match transport with
      | .exn e => (.error (.net e), [.call product_id side (pyRound2 usd_amount)])
      | .resp st jb tx =>
          (.ok (st, match jb with | some j => .json j | none => .text tx),
           [.call product_id side (pyRound2 usd_amount)])

/-! ### The handler's response bodies -/

def emptyBodyResp : J := .obj [("error", .str "empty body")]

def invalidSecretResp : J := .obj [("error", .str "invalid secret")]

def duplicateResp (t : String) : J :=
  .obj [("error", .str "duplicate alert"), ("tv_id", .str t)]

/-- The parsed map echoed back in the missing-fields reply. -/
def receivedJ (m : List (String × String)) : J :=
  .obj (m.map (fun p => (p.1, J.str p.2)))

def missingFieldsResp (m : List (String × String)) : J :=
  .obj [("error", .str "missing fields"), ("received", receivedJ m)]

/-- Body actually produced by the buggy line 163
`return jsonify({"error": "invalid amount"}, 400)`: `jsonify` with two
positional arguments serialises them as a JSON array and replies with
HTTP status 200 — the intended 400 ends up inside the body. -/
def invalidAmountBuggyResp : J :=
  .arr [.obj [("error", .str "invalid amount")], .num 400]

def oobResp (cfg : Config) : J :=
  .obj [("error", .str "amount out of bounds"),
        ("max_allowed", .num cfg.max_usd_per_order)]

def rateLimitResp (cfg : Config) : J :=
  .obj [("error", .str "rate limit"),
        ("min_seconds", .num cfg.min_seconds_between_orders)]

def okResp (st : ℕ) (r : RB) : J :=
  .obj [("status", .str "ok"), ("code", .num st), ("response", rbToJ r)]

def errResp (st : ℕ) (r : RB) : J :=
  .obj [("status", .str "error"), ("code", .num st), ("response", rbToJ r)]

/-! ### AlertPipeline: the webhook handler -/

/-- `tradingview_webhook`: the full `POST /webhook/tradingview` handler.
Inputs: the configuration, the transport oracle for the (at most one)
outbound exchange call, the current clock `now`, the database state and
the raw request body.  Output: the HTTP reply (or a propagated
exception), the new database state, and the effect list. -/
def tradingview_webhook (cfg : Config) (transport : Transport) (now : ℚ)
    (db : DB) (rawBody : String) :
    Except PlaceErr (ℕ × J) × DB × List Effect :=
  let raw := pyStripS rawBody
  if raw = "" then (.ok (400, emptyBodyResp), db, [])
  else
    let data := parse_alert_text raw
    if dgetD data "secret" "" ≠ cfg.alert_secret then
      (.ok (401, invalidSecretResp), db, [])
    else
      let tv_id := resolveTvId data
      if pyTruthyOpt tv_id && already_processed db tv_id then
        (.ok (409, duplicateResp (tv_id.getD "")), db, [])
      else
        let symbol := dget data "symbol"
        let action := dget data "action"
        let amount := dget data "amount"
        if pyFalsy symbol || pyFalsy action || pyFalsy amount then
          (.ok (400, missingFieldsResp data), db, [])
        else
          match pyFloat (amount.getD "") with
          | none => (.ok (200, invalidAmountBuggyResp), db, [])
          | some usd_amount =>
              if usd_amount ≤ 0 ∨ cfg.max_usd_per_order < usd_amount then
                (.ok (400, oobResp cfg), db, [])
              else
                let last_ts := get_last_order_ts db
                if now - last_ts < cfg.min_seconds_between_orders then
                  (.ok (429, rateLimitResp cfg), db, [])
                else
                  let side :=
                    if pyStartsWith "buy".data ((action.getD "").data.map pyLowerChar)
                    then "buy" else "sell"
                  let pr := place_market_order_by_funds cfg transport
                    (pyIntStr now) (symbol.getD "") side usd_amount
                  match pr.1 with
                  | .error e => (.error e, db, pr.2)
                  | .ok (st, resp) =>
                      let alertRec : AlertRecord :=
                        { tv_id := tv_id, raw := raw,
                          symbol := symbol.getD "", action := action.getD "",
                          amount := usd_amount,
                          status := if st = 200 ∨ st = 201 then "placed"
                                    else "attempted",
                          response := rbToJ resp }
                      let db2 := set_last_order_ts (insert_alert db alertRec) now
                      let effs := pr.2 ++ [.insert alertRec,
                                           .checkpoint (pyFloatStr now)]
                      if st = 200 ∨ st = 201 then
                        (.ok (200, okResp st resp), db2, effs)
                      else
                        (.ok (500, errResp st resp), db2, effs)

/-! ### Effect counting -/

/-- Number of `insert_alert` effects. -/
def countInserts (effs : List Effect) : ℕ :=
  (effs.filter (fun e => match e with | .insert _ => true | _ => false)).length

/-- Number of outbound exchange-call effects. -/
def countCalls (effs : List Effect) : ℕ :=
  (effs.filter (fun e => match e with | .call _ _ _ => true | _ => false)).length

/-- Number of `set_last_order_ts` effects. -/
def countCheckpoints (effs : List Effect) : ℕ :=
  (effs.filter (fun e => match e with | .checkpoint _ => true | _ => false)).length

/-! ### Concrete test fixtures (used by witnesses) -/

/-- A concrete configuration: shared secret `changeme`, $100 cap, 1s
rate-limit window, empty (valid base64) API secret. -/
def testCfg : Config :=
  { alert_secret := "changeme", max_usd_per_order := 100,
    min_seconds_between_orders := 1, api_key := "k", api_secret := "",
    passphrase := "p" }

/-- A fresh database: no alerts, no checkpoint row. -/
def freshDb : DB := { alerts := [], meta := none }

/-- A stubbed exchange returning `201 {"id": "X"}`. -/
def tpOK : Transport := .resp 201 (some (.obj [("id", .str "X")])) "stub"

/-- A fully valid alert body for `testCfg`. -/
def validRaw : String := "secret: changeme; symbol: BTC-USD; action: buy; amount: 10"

/-! ### Dictionary lemmas -/

theorem find?_map_replace_ne (m : List (String × String)) (k v k' : String)
    (h : k' ≠ k) :
    (m.map (fun p => if p.1 = k then (k, v) else p)).find?
        (fun p => p.1 = k') = m.find? (fun p => p.1 = k') := by
  induction m with
  | nil => rfl
  | cons a m ih =>
    by_cases ha : a.1 = k
    · simp only [List.map_cons, if_pos ha, List.find?_cons]
      have h1 : (decide (k = k')) = false := by simp [Ne.symm h]
      have h2 : (decide (a.1 = k')) = false := by simp [ha, Ne.symm h]
      simp [h1, h2, ih]
    · simp only [List.map_cons, if_neg ha, List.find?_cons]
      cases hd : decide (a.1 = k') <;> simp [hd, ih]

theorem find?_map_replace_eq (m : List (String × String)) (k v : String)
    (h : m.any (fun p => p.1 = k) = true) :
    (m.map (fun p => if p.1 = k then (k, v) else p)).find?
        (fun p => p.1 = k) = some (k, v) := by
  induction m with
  | nil => simp at h
  | cons a m ih =>
    by_cases ha : a.1 = k
    · simp [List.find?_cons, if_pos ha]
    · have h' : m.any (fun p => p.1 = k) = true := by
        simp only [List.any_cons] at h
        simpa [ha] using h
      simp [List.find?_cons, if_neg ha, ha, ih h']

theorem find?_eq_none_of_any_false (m : List (String × String)) (k : String)
    (h : m.any (fun p => p.1 = k) = false) :
    m.find? (fun p => p.1 = k) = none := by
  induction m with
  | nil => rfl
  | cons a m ih =>
    simp only [List.any_cons, Bool.or_eq_false_iff] at h
    simp [List.find?_cons, h.1, ih h.2]

/-- Python dict assignment observed through `get`. -/
theorem dget_pyDictSet (m : List (String × String)) (k v k' : String) :
    dget (pyDictSet m k v) k' = if k' = k then some v else dget m k' := by
  by_cases hk : m.any (fun p => p.1 = k) = true
  · simp only [pyDictSet, hk, if_true]
    by_cases hkk : k' = k
    · subst hkk
      simp [dget, find?_map_replace_eq m k' v hk]
    · simp [dget, find?_map_replace_ne m k v k' hkk, hkk]
  · simp only [pyDictSet, hk, if_false]
    by_cases hkk : k' = k
    · subst hkk
      simp [dget, List.find?_append,
        find?_eq_none_of_any_false m k' (Bool.eq_false_iff.mpr hk)]
    · simp only [dget, List.find?_append]
      cases hf : m.find? (fun p => p.1 = k') with
      | some p => simp [hf, hkk]
      | none => simp [hf, hkk, Ne.symm hkk]

/-- Appending on the left leaves a non-`none` `getLast?` unchanged. -/
theorem getLast?_cons_some {α : Type} (a p : α) (l : List α)
    (h : l.getLast? = some p) : (a :: l).getLast? = some p := by
  cases l with
  | nil => simp at h
  | cons b l => rw [List.getLast?_cons_cons]; exact h

/-- Folding Python dict assignments: the last binding of a key wins;
keys never bound keep their prior value. -/
theorem dget_setfold (ps : List (String × String))
    (m : List (String × String)) (k : String) :
    dget (ps.foldl (fun acc p => pyDictSet acc p.1 p.2) m) k =
      match (ps.filter (fun p => p.1 = k)).getLast? with
      | some p => some p.2
      | none => dget m k := by
  induction ps generalizing m with
  | nil => simp
  | cons a ps ih =>
    rw [List.foldl_cons, ih]
    by_cases hk : a.1 = k
    · rw [List.filter_cons_of_pos (by simp [hk])]
      cases hfilter : (ps.filter (fun p => p.1 = k)).getLast? with
      | some p => rw [getLast?_cons_some a p _ hfilter]
      | none =>
        have hnil : ps.filter (fun p => p.1 = k) = [] :=
          List.getLast?_eq_none_iff.mp hfilter
        rw [hnil]
        simp only [List.getLast?_singleton]
        rw [dget_pyDictSet, if_pos hk.symm]
    · rw [List.filter_cons_of_neg (by simp [hk])]
      cases hfilter : (ps.filter (fun p => p.1 = k)).getLast? with
      | some p => rfl
      | none => rw [dget_pyDictSet, if_neg (Ne.symm hk)]

/-! ### Claim C7: the parser -/

/-- The spec's description of one segment: if it contains `:`, split on
the first `:` into a stripped lower-cased key and a stripped value;
otherwise drop it. -/
def segKV (p : List Char) : Option (String × String) :=
  (splitFirst ':' p).map (fun q =>
    (String.mk ((pyStrip q.1).map pyLowerChar), String.mk (pyStrip q.2)))

theorem parse_foldl_filterMap (segs : List (List Char))
    (m : List (String × String)) :
    segs.foldl
      (fun m p =>
        match splitFirst ':' p with
        | none => m
        | some (k, v) =>
            pyDictSet m (String.mk ((pyStrip k).map pyLowerChar))
              (String.mk (pyStrip v))) m
    = (segs.filterMap segKV).foldl (fun acc p => pyDictSet acc p.1 p.2) m := by
  induction segs generalizing m with
  | nil => rfl
  | cons p segs ih =>
    cases hs : splitFirst ':' p with
    | none => simp [List.foldl_cons, List.filterMap_cons, segKV, hs, ih]
    | some kv => simp [List.foldl_cons, List.filterMap_cons, segKV, hs, ih]

/-- C7: `parse_alert_text` splits on `;`, drops colon-free segments,
splits each remaining segment on its first `:` into a stripped
lower-cased key and a stripped value, with the last occurrence of a
duplicate key winning (it is total, hence never raises); and on the
spec's example it yields exactly
`{secret: "s", symbol: "BTC-USD", action: "buy", amount: "10"}`. -/
theorem parse_alert_text_spec :
    (parse_alert_text "secret: s; symbol: BTC-USD; action: buy; amount: 10" =
      [("secret", "s"), ("symbol", "BTC-USD"), ("action", "buy"),
       ("amount", "10")])
    ∧
    (∀ txt k, dget (parse_alert_text txt) k =
      (((splitChar ';' txt.data).filterMap segKV).filter
          (fun p => p.1 = k)).getLast?.map (fun p => p.2)) := by
  constructor
  · rfl
  · intro txt k
    unfold parse_alert_text
    rw [parse_foldl_filterMap, dget_setfold]
    cases h : (((splitChar ';' txt.data).filterMap segKV).filter
        (fun p => p.1 = k)).getLast? with
    | some p => rfl
    | none => rfl

/-! ### Inversion helpers for the handler's terminal responses -/

/-- A 429 reply can only come from the rate-limit branch. -/
theorem result_429_rate (cfg : Config) (tp : Transport) (now : ℚ) (db : DB)
    (rawBody : String) (j : J) (db' : DB) (effs : List Effect)
    (h : tradingview_webhook cfg tp now db rawBody = (.ok (429, j), db', effs)) :
    now - get_last_order_ts db < cfg.min_seconds_between_orders ∧
      j = rateLimitResp cfg := by
  simp only [tradingview_webhook] at h
  repeat' split at h
  all_goals simp_all

/-- A 409 reply can only come from the duplicate branch, whose guard
requires a truthy resolved id that is already in the store. -/
theorem result_409_dup (cfg : Config) (tp : Transport) (now : ℚ) (db : DB)
    (rawBody : String) (j : J) (db' : DB) (effs : List Effect)
    (h : tradingview_webhook cfg tp now db rawBody = (.ok (409, j), db', effs)) :
    pyTruthyOpt (resolveTvId (parse_alert_text (pyStripS rawBody))) = true ∧
      already_processed db (resolveTvId (parse_alert_text (pyStripS rawBody)))
        = true := by
  simp only [tradingview_webhook] at h
  repeat' split at h
  all_goals simp_all

/-! ### Claim C9: missing / unparsable checkpoint -/

/-- C9: `get_last_order_ts` returns `0.0` when the checkpoint row is
absent or its value does not parse as a float; consequently the first
request against a fresh store is never rejected by the rate limit when
`now ≥ MIN_SECONDS_BETWEEN_ORDERS`. -/
theorem get_last_order_ts_default :
    (∀ db : DB, db.meta = none → get_last_order_ts db = 0) ∧
    (∀ (db : DB) (v : String), db.meta = some v → pyFloat v = none →
        get_last_order_ts db = 0) ∧
    (∀ (cfg : Config) (tp : Transport) (now : ℚ) (rawBody : String) (j : J),
        (cfg.min_seconds_between_orders : ℚ) ≤ now →
        (tradingview_webhook cfg tp now freshDb rawBody).1 ≠ .ok (429, j)) := by
  refine ⟨?_, ?_, ?_⟩
  · intro db h
    simp [get_last_order_ts, h]
  · intro db v h hv
    simp [get_last_order_ts, h, hv]
  · intro cfg tp now rawBody j hmin h
    have hlast : get_last_order_ts freshDb = 0 := rfl
    have h0 : tradingview_webhook cfg tp now freshDb rawBody =
        ((tradingview_webhook cfg tp now freshDb rawBody).1,
         (tradingview_webhook cfg tp now freshDb rawBody).2.1,
         (tradingview_webhook cfg tp now freshDb rawBody).2.2) := rfl
    rw [h] at h0
    have := (result_429_rate cfg tp now freshDb rawBody j _ _ h0).1
    rw [hlast] at this
    linarith

/-! ### Claim C10: absent id never counts as duplicate -/

/-- C10: a falsy external id is never a duplicate: `already_processed`
is `False` on `None` and on `""`; an empty `tv_id` field falls back to
the `id` field; both falsy yields no idempotency key; and a request
whose resolved id is absent is never answered 409, whatever the store
holds. -/
theorem already_processed_falsy :
    (∀ db : DB, already_processed db none = false) ∧
    (∀ db : DB, already_processed db (some "") = false) ∧
    (∀ data : List (String × String), pyFalsy (dget data "tv_id") = true →
        resolveTvId data = pyOr (dget data "id") none) ∧
    (∀ data : List (String × String), pyFalsy (dget data "tv_id") = true →
        pyFalsy (dget data "id") = true → resolveTvId data = none) ∧
    (∀ (cfg : Config) (tp : Transport) (now : ℚ) (db : DB)
        (rawBody : String) (j : J),
        resolveTvId (parse_alert_text (pyStripS rawBody)) = none →
        (tradingview_webhook cfg tp now db rawBody).1 ≠ .ok (409, j)) := by
  refine ⟨?_, ?_, ?_, ?_, ?_⟩
  · intro db; rfl
  · intro db; simp [already_processed]
  · intro data h
    cases hd : dget data "tv_id" with
    | none => simp [resolveTvId, pyOr, hd]
    | some s => simp_all [pyFalsy, resolveTvId, pyOr, hd]
  · intro data h h'
    cases hd : dget data "tv_id" with
    | none =>
        cases hd' : dget data "id" with
        | none => simp [resolveTvId, pyOr, hd, hd']
        | some s => simp_all [pyFalsy, resolveTvId, pyOr, hd, hd']
    | some s =>
        cases hd' : dget data "id" with
        | none => simp_all [pyFalsy, resolveTvId, pyOr, hd, hd']
        | some s' => simp_all [pyFalsy, resolveTvId, pyOr, hd, hd']
  · intro cfg tp now db rawBody j hres h
    have h0 : tradingview_webhook cfg tp now db rawBody =
        ((tradingview_webhook cfg tp now db rawBody).1,
         (tradingview_webhook cfg tp now db rawBody).2.1,
         (tradingview_webhook cfg tp now db rawBody).2.2) := rfl
    rw [h] at h0
    have := (result_409_dup cfg tp now db rawBody j _ _ h0).1
    rw [hres] at this
    simp [pyTruthyOpt, pyFalsy] at this

/-! ### Further structural helpers -/

/-- A resolved idempotency id is never the empty string (the Python
truthiness chain skips empty fields). -/
theorem resolveTvId_some_ne (data : List (String × String)) (t : String)
    (h : resolveTvId data = some t) : t ≠ "" := by
  unfold resolveTvId pyOr at h
  cases hd : dget data "tv_id" with
  | none =>
      rw [hd] at h
      cases hd' : dget data "id" with
      | none => rw [hd'] at h; cases h
      | some s =>
          rw [hd'] at h
          by_cases hs : s = "" <;> simp [hs] at h
          exact h ▸ hs
  | some s =>
      rw [hd] at h
      by_cases hs : s = "" <;> simp [hs] at h
      · cases hd' : dget data "id" with
        | none => rw [hd'] at h; cases h
        | some s' =>
            rw [hd'] at h
            by_cases hs' : s' = "" <;> simp [hs'] at h
            exact h ▸ hs'
      · exact h ▸ hs

/-- Unfolding of the signer on a decodable secret. -/
theorem cb_auth_headers_some (cfg : Config) (tsStr method path body : String)
    (key : List ℕ) (h : b64decode cfg.api_secret = some key) :
    cb_auth_headers cfg tsStr method path body =
      some [("CB-ACCESS-KEY", cfg.api_key),
            ("CB-ACCESS-SIGN", b64encode (hmacSha256 key
              (utf8Encode (tsStr ++ pyUpperS method ++ path ++ body)))),
            ("CB-ACCESS-TIMESTAMP", tsStr),
            ("CB-ACCESS-PASSPHRASE", cfg.passphrase),
            ("Content-Type", "application/json")] := by
  unfold cb_auth_headers
  rw [h]

/-- The gateway's effect list is empty (signing raised) or exactly one
outbound call. -/
theorem place_market_order_effects (cfg : Config) (tp : Transport)
    (tsStr pid side : String) (usd : ℚ) :
    (place_market_order_by_funds cfg tp tsStr pid side usd).2 = [] ∨
    (place_market_order_by_funds cfg tp tsStr pid side usd).2 =
      [.call pid side (pyRound2 usd)] := by
  cases h : cb_auth_headers cfg tsStr "POST" "/orders"
      (orderBody pid side (fundsStr usd)) <;>
    cases tp <;> simp [place_market_order_by_funds, h]

/-- When the gateway returns a pair, exactly one call went out. -/
theorem place_market_order_ok_effects (cfg : Config) (tp : Transport)
    (tsStr pid side : String) (usd : ℚ) (x : ℕ × RB)
    (h : (place_market_order_by_funds cfg tp tsStr pid side usd).1 = .ok x) :
    (place_market_order_by_funds cfg tp tsStr pid side usd).2 =
      [.call pid side (pyRound2 usd)] := by
  cases hca : cb_auth_headers cfg tsStr "POST" "/orders"
      (orderBody pid side (fundsStr usd)) <;>
    cases tp <;> simp_all [place_market_order_by_funds, hca]

/-- The duplicate branch: a non-empty resolved id already present in
the store short-circuits the request at 409 with no state change and no
effects (given the request passed the empty-body and secret steps). -/
theorem handler_dup (cfg : Config) (tp : Transport) (now : ℚ) (db : DB)
    (rawBody t : String)
    (hne : pyStripS rawBody ≠ "")
    (hsec : dgetD (parse_alert_text (pyStripS rawBody)) "secret" ""
      = cfg.alert_secret)
    (hid : resolveTvId (parse_alert_text (pyStripS rawBody)) = some t)
    (hdup : already_processed db (some t) = true) :
    tradingview_webhook cfg tp now db rawBody =
      (.ok (409, duplicateResp t), db, []) := by
  have ht : t ≠ "" := resolveTvId_some_ne _ _ hid
  simp only [tradingview_webhook]
  simp [hne, hsec, hid, hdup, pyTruthyOpt, pyFalsy, ht]

/-! ### Claim C6: the exchange signer -/

/-- C6: `cb_auth_headers` fails exactly when the configured API secret
is not valid base64; otherwise it returns the header set whose
`CB-ACCESS-SIGN` is the base64 HMAC-SHA256 of
`timestamp + method.upper() + path + body` keyed with the
base64-decoded secret, alongside the timestamp, API key and passphrase
headers.  (It is a plain function of its arguments, hence
deterministic.) -/
theorem cb_auth_headers_spec :
    (∀ (cfg : Config) (tsStr method path body : String),
        (cb_auth_headers cfg tsStr method path body = none ↔
          b64decode cfg.api_secret = none)) ∧
    (∀ (cfg : Config) (tsStr method path body : String) (key : List ℕ),
        b64decode cfg.api_secret = some key →
        ∃ hs, cb_auth_headers cfg tsStr method path body = some hs ∧
          dget hs "CB-ACCESS-SIGN" = some (b64encode (hmacSha256 key
            (utf8Encode (tsStr ++ pyUpperS method ++ path ++ body)))) ∧
          dget hs "CB-ACCESS-TIMESTAMP" = some tsStr ∧
          dget hs "CB-ACCESS-KEY" = some cfg.api_key ∧
          dget hs "CB-ACCESS-PASSPHRASE" = some cfg.passphrase) := by
  constructor
  · intro cfg tsStr method path body
    unfold cb_auth_headers
    cases h : b64decode cfg.api_secret <;> simp [h]
  · intro cfg tsStr method path body key h
    exact ⟨_, cb_auth_headers_some cfg tsStr method path body key h,
      rfl, rfl, rfl, rfl⟩

/-- Witness for C6 at a concrete configuration (`testCfg`, whose API
secret `""` decodes to the empty key). -/
theorem cb_auth_headers_spec_witness :
    b64decode testCfg.api_secret = some [] ∧
    ∃ hs, cb_auth_headers testCfg "1" "post" "/orders" "B" = some hs ∧
      dget hs "CB-ACCESS-SIGN" = some (b64encode (hmacSha256 []
        (utf8Encode ("1" ++ pyUpperS "post" ++ "/orders" ++ "B")))) ∧
      dget hs "CB-ACCESS-TIMESTAMP" = some "1" ∧
      dget hs "CB-ACCESS-KEY" = some testCfg.api_key ∧
      dget hs "CB-ACCESS-PASSPHRASE" = some testCfg.passphrase :=
  ⟨rfl, cb_auth_headers_spec.2 testCfg "1" "post" "/orders" "B" [] rfl⟩

/-! ### Claim C2: the gateway (corrected) -/

/-- C2 counterexample: a transport timeout propagates out of
`place_market_order_by_funds` as an exception (`Except.error`); the
function does not return a status/body pair for that behaviour. -/
theorem place_market_order_timeout_raises :
    place_market_order_by_funds testCfg (.exn .timeout) "1" "BTC-USD" "buy" 10 =
      (.error (.net .timeout), [.call "BTC-USD" "buy" (pyRound2 10)]) := rfl

/-- C2 (amended): whenever the transport yields an HTTP response (and
the configured API secret decodes), `place_market_order_by_funds`
returns the raw status with the JSON-decoded body, degrading a non-JSON
body to its raw text; a network-level exception instead propagates
(as does a base64 failure, raised while signing). -/
theorem place_market_order_response_pair :
    (∀ (cfg : Config) (tp : Transport) (tsStr pid side : String) (usd : ℚ)
        (st : ℕ) (jb : Option J) (tx : String) (key : List ℕ),
        b64decode cfg.api_secret = some key → tp = .resp st jb tx →
        place_market_order_by_funds cfg tp tsStr pid side usd =
          (.ok (st, match jb with | some j => .json j | none => .text tx),
           [.call pid side (pyRound2 usd)])) ∧
    (∀ (cfg : Config) (tp : Transport) (tsStr pid side : String) (usd : ℚ)
        (e : NetErr) (key : List ℕ),
        b64decode cfg.api_secret = some key → tp = .exn e →
        place_market_order_by_funds cfg tp tsStr pid side usd =
          (.error (.net e), [.call pid side (pyRound2 usd)])) := by
  constructor
  · intro cfg tp tsStr pid side usd st jb tx key hk htp
    subst htp
    simp only [place_market_order_by_funds]
    rw [cb_auth_headers_some _ _ _ _ _ _ hk]
  · intro cfg tp tsStr pid side usd e key hk htp
    subst htp
    simp only [place_market_order_by_funds]
    rw [cb_auth_headers_some _ _ _ _ _ _ hk]

/-- Witness for the amended C2: a 502 with a non-JSON body comes back
as the status paired with the raw text; an exception propagates. -/
theorem place_market_order_response_pair_witness :
    (place_market_order_by_funds testCfg (.resp 502 none "oops") "1"
        "BTC-USD" "sell" 10 =
      (.ok (502, .text "oops"), [.call "BTC-USD" "sell" (pyRound2 10)])) ∧
    (place_market_order_by_funds testCfg (.exn .connRefused) "1"
        "BTC-USD" "sell" 10 =
      (.error (.net .connRefused), [.call "BTC-USD" "sell" (pyRound2 10)])) :=
  ⟨place_market_order_response_pair.1 testCfg _ "1" "BTC-USD" "sell" 10
      502 none "oops" [] rfl rfl,
   place_market_order_response_pair.2 testCfg _ "1" "BTC-USD" "sell" 10
      .connRefused [] rfl rfl⟩

/-! ### Claim C1 (code bug): the invalid-amount branch -/

/-- C1 (code bug, source line 163): on a request that passes the
empty-body, secret, duplicate and missing-fields checks but whose
amount does not parse, `return jsonify({"error": "invalid amount"}, 400)`
puts the intended status *inside* the body: the handler replies HTTP
200 with the JSON array `[{"error": "invalid amount"}, 400]` instead of
the specified 400 `{"error": "invalid amount"}`. -/
theorem invalid_amount_returns_200_array :
    tradingview_webhook testCfg tpOK 5 freshDb
      "secret: changeme; symbol: BTC-USD; action: buy; amount: abc" =
      (.ok (200, invalidAmountBuggyResp), freshDb, []) := rfl

/-- Witness for C9: a fresh store and an unparsable stored value both
yield checkpoint `0.0`, and a first request at time 5 (≥ the 1-second
window) is not rate-limited. -/
theorem get_last_order_ts_default_witness :
    get_last_order_ts { alerts := [], meta := none } = 0 ∧
    get_last_order_ts { alerts := [], meta := some "not a float" } = 0 ∧
    ((testCfg.min_seconds_between_orders : ℚ) ≤ 5 ∧
      (tradingview_webhook testCfg tpOK 5 freshDb validRaw).1 ≠
        .ok (429, J.obj [])) := by
  refine ⟨get_last_order_ts_default.1 _ rfl,
    get_last_order_ts_default.2.1 _ "not a float" rfl rfl, ?_, ?_⟩
  · norm_num [testCfg]
  · exact get_last_order_ts_default.2.2 testCfg tpOK 5 validRaw (J.obj [])
      (by norm_num [testCfg])

/-- Witness for C10 at concrete stores and parsed maps. -/
theorem already_processed_falsy_witness :
    already_processed freshDb none = false ∧
    already_processed freshDb (some "") = false ∧
    resolveTvId [("tv_id", ""), ("id", "A1")] =
      pyOr (dget [("tv_id", ""), ("id", "A1")] "id") none ∧
    resolveTvId [("tv_id", ""), ("id", "")] = none ∧
    (tradingview_webhook testCfg tpOK 5 freshDb validRaw).1 ≠
      .ok (409, J.obj []) := by
  refine ⟨already_processed_falsy.1 freshDb, already_processed_falsy.2.1 freshDb,
    already_processed_falsy.2.2.1 _ rfl,
    already_processed_falsy.2.2.2.1 _ rfl rfl,
    already_processed_falsy.2.2.2.2 testCfg tpOK 5 freshDb validRaw
      (J.obj []) rfl⟩

/-! ### Claim C8: the bounds check -/

/-- C8: for a request that reaches the bounds check with parsed amount
`q`, the handler replies 400 `{error: "amount out of bounds",
max_allowed}` (with no state change and no effects) exactly when
`q ≤ 0` or `q > MAX_USD_PER_ORDER`; in particular `0` and anything
above the cap are rejected and `MAX_USD_PER_ORDER` itself passes. -/
theorem amount_bounds_check
    (cfg : Config) (tp : Transport) (now : ℚ) (db : DB)
    (rawBody sym act amts : String) (q : ℚ)
    (hne : pyStripS rawBody ≠ "")
    (hsec : dgetD (parse_alert_text (pyStripS rawBody)) "secret" ""
      = cfg.alert_secret)
    (hdup : (pyTruthyOpt (resolveTvId (parse_alert_text (pyStripS rawBody))) &&
      already_processed db (resolveTvId (parse_alert_text (pyStripS rawBody))))
        = false)
    (hsym : dget (parse_alert_text (pyStripS rawBody)) "symbol" = some sym)
    (hsymne : sym ≠ "")
    (hact : dget (parse_alert_text (pyStripS rawBody)) "action" = some act)
    (hactne : act ≠ "")
    (hamts : dget (parse_alert_text (pyStripS rawBody)) "amount" = some amts)
    (hamtsne : amts ≠ "")
    (hq : pyFloat amts = some q) :
    tradingview_webhook cfg tp now db rawBody =
        (.ok (400, oobResp cfg), db, []) ↔
      (q ≤ 0 ∨ cfg.max_usd_per_order < q) := by
  simp only [tradingview_webhook]
  rw [if_neg hne, if_neg (not_not_intro hsec), if_neg (by simp [hdup]),
    if_neg (by simp [hsym, hact, hamts, pyFalsy, hsymne, hactne, hamtsne]),
    hamts]
  simp only [Option.getD_some, hq]
  constructor
  · intro heq
    by_contra hb
    rw [if_neg hb] at heq
    repeat' split at heq
    all_goals simp_all
  · intro hb
    rw [if_pos hb]

/-- Witness for C8: amount `0` (with an otherwise valid request against
`testCfg`) is rejected with the out-of-bounds reply and no state change. -/
theorem amount_bounds_check_witness :
    (tradingview_webhook testCfg tpOK 5 freshDb
        "secret: changeme; symbol: BTC-USD; action: buy; amount: 0" =
      (.ok (400, oobResp testCfg), freshDb, [])) ∧
    ((0 : ℚ) ≤ 0 ∨ testCfg.max_usd_per_order < 0) :=
  ⟨(amount_bounds_check testCfg tpOK 5 freshDb
      "secret: changeme; symbol: BTC-USD; action: buy; amount: 0"
      "BTC-USD" "buy" "0" 0
      (by decide) rfl rfl rfl (by decide) rfl (by decide) rfl (by decide)
      (by with_unfolding_all decide)).mpr (Or.inl le_rfl),
   Or.inl le_rfl⟩

/-! ### Gateway evaluation helpers -/

/-- The gateway on a transport response (decodable secret). -/
theorem place_resp (cfg : Config) (tsStr pid side : String) (usd : ℚ)
    (st : ℕ) (jb : Option J) (tx : String) (key : List ℕ)
    (hk : b64decode cfg.api_secret = some key) :
    place_market_order_by_funds cfg (.resp st jb tx) tsStr pid side usd =
      (.ok (st, jb.elim (RB.text tx) RB.json),
       [.call pid side (pyRound2 usd)]) := by
  simp only [place_market_order_by_funds]
  rw [cb_auth_headers_some _ _ _ _ _ _ hk]
  cases jb <;> rfl

/-- The gateway on a transport exception (decodable secret). -/
theorem place_exn (cfg : Config) (tsStr pid side : String) (usd : ℚ)
    (e : NetErr) (key : List ℕ)
    (hk : b64decode cfg.api_secret = some key) :
    place_market_order_by_funds cfg (.exn e) tsStr pid side usd =
      (.error (.net e), [.call pid side (pyRound2 usd)]) := by
  simp only [place_market_order_by_funds]
  rw [cb_auth_headers_some _ _ _ _ _ _ hk]

/-- Full evaluation of the handler on a request that passes steps 1–8,
with a transport that yields an HTTP response. -/
theorem handler_placement
    (cfg : Config) (st : ℕ) (jb : Option J) (tx : String) (now : ℚ) (db : DB)
    (rawBody sym act amts : String) (q : ℚ) (key : List ℕ)
    (hne : pyStripS rawBody ≠ "")
    (hsec : dgetD (parse_alert_text (pyStripS rawBody)) "secret" ""
      = cfg.alert_secret)
    (hdup : (pyTruthyOpt (resolveTvId (parse_alert_text (pyStripS rawBody))) &&
      already_processed db (resolveTvId (parse_alert_text (pyStripS rawBody))))
        = false)
    (hsym : dget (parse_alert_text (pyStripS rawBody)) "symbol" = some sym)
    (hsymne : sym ≠ "")
    (hact : dget (parse_alert_text (pyStripS rawBody)) "action" = some act)
    (hactne : act ≠ "")
    (hamts : dget (parse_alert_text (pyStripS rawBody)) "amount" = some amts)
    (hamtsne : amts ≠ "")
    (hq : pyFloat amts = some q)
    (hbounds : ¬(q ≤ 0 ∨ cfg.max_usd_per_order < q))
    (hrate : ¬(now - get_last_order_ts db <
      (cfg.min_seconds_between_orders : ℚ)))
    (hkey : b64decode cfg.api_secret = some key) :
    tradingview_webhook cfg (.resp st jb tx) now db rawBody =
      (if st = 200 ∨ st = 201 then
         Except.ok (200, okResp st (jb.elim (RB.text tx) RB.json))
       else Except.ok (500, errResp st (jb.elim (RB.text tx) RB.json)),
       set_last_order_ts (insert_alert db
         { tv_id := resolveTvId (parse_alert_text (pyStripS rawBody)),
           raw := pyStripS rawBody, symbol := sym, action := act,
           amount := q,
           status := if st = 200 ∨ st = 201 then "placed" else "attempted",
           response := rbToJ (jb.elim (RB.text tx) RB.json) }) now,
       [.call sym
          (if pyStartsWith "buy".data (act.data.map pyLowerChar)
           then "buy" else "sell") (pyRound2 q),
        .insert
          { tv_id := resolveTvId (parse_alert_text (pyStripS rawBody)),
            raw := pyStripS rawBody, symbol := sym, action := act,
            amount := q,
            status := if st = 200 ∨ st = 201 then "placed" else "attempted",
            response := rbToJ (jb.elim (RB.text tx) RB.json) },
        .checkpoint (pyFloatStr now)]) := by
  simp only [tradingview_webhook]
  rw [if_neg hne, if_neg (not_not_intro hsec), if_neg (by simp [hdup]),
    if_neg (by simp [hsym, hact, hamts, pyFalsy, hsymne, hactne, hamtsne])]
  simp only [hsym, hact, hamts, Option.getD_some, hq]
  rw [if_neg hbounds, if_neg hrate]
  rw [place_resp cfg (pyIntStr now) sym
    (if pyStartsWith "buy".data (act.data.map pyLowerChar)
     then "buy" else "sell") q st jb tx key hkey]
  by_cases hst : st = 200 ∨ st = 201 <;> simp [hst]

/-! ### Claim C5: unconditional persistence, status and reply -/

/-- C5: every alert reaching order placement (transport yielding a
response) appends exactly one AlertRecord, whose status is `"placed"`
iff the gateway code is 200 or 201 and `"attempted"` otherwise, and the
HTTP reply is 200 `{status: "ok", code, response}` exactly on gateway
success, else 500 `{status: "error", code, response}`. -/
theorem placement_record_and_response
    (cfg : Config) (st : ℕ) (jb : Option J) (tx : String) (now : ℚ) (db : DB)
    (rawBody sym act amts : String) (q : ℚ) (key : List ℕ)
    (hne : pyStripS rawBody ≠ "")
    (hsec : dgetD (parse_alert_text (pyStripS rawBody)) "secret" ""
      = cfg.alert_secret)
    (hdup : (pyTruthyOpt (resolveTvId (parse_alert_text (pyStripS rawBody))) &&
      already_processed db (resolveTvId (parse_alert_text (pyStripS rawBody))))
        = false)
    (hsym : dget (parse_alert_text (pyStripS rawBody)) "symbol" = some sym)
    (hsymne : sym ≠ "")
    (hact : dget (parse_alert_text (pyStripS rawBody)) "action" = some act)
    (hactne : act ≠ "")
    (hamts : dget (parse_alert_text (pyStripS rawBody)) "amount" = some amts)
    (hamtsne : amts ≠ "")
    (hq : pyFloat amts = some q)
    (hbounds : ¬(q ≤ 0 ∨ cfg.max_usd_per_order < q))
    (hrate : ¬(now - get_last_order_ts db <
      (cfg.min_seconds_between_orders : ℚ)))
    (hkey : b64decode cfg.api_secret = some key) :
    ∃ r : AlertRecord,
      (tradingview_webhook cfg (.resp st jb tx) now db rawBody).2.1.alerts =
        db.alerts ++ [r] ∧
      (r.status = "placed" ↔ (st = 200 ∨ st = 201)) ∧
      (¬(st = 200 ∨ st = 201) → r.status = "attempted") ∧
      ((st = 200 ∨ st = 201) →
        (tradingview_webhook cfg (.resp st jb tx) now db rawBody).1 =
          .ok (200, okResp st (jb.elim (RB.text tx) RB.json))) ∧
      (¬(st = 200 ∨ st = 201) →
        (tradingview_webhook cfg (.resp st jb tx) now db rawBody).1 =
          .ok (500, errResp st (jb.elim (RB.text tx) RB.json))) := by
  have heq := handler_placement cfg st jb tx now db rawBody sym act amts q key
    hne hsec hdup hsym hsymne hact hactne hamts hamtsne hq hbounds hrate hkey
  refine ⟨{ tv_id := resolveTvId (parse_alert_text (pyStripS rawBody)),
            raw := pyStripS rawBody, symbol := sym, action := act, amount := q,
            status := if st = 200 ∨ st = 201 then "placed" else "attempted",
            response := rbToJ (jb.elim (RB.text tx) RB.json) },
    ?_, ?_, ?_, ?_, ?_⟩
  · rw [heq]
    simp [set_last_order_ts, insert_alert]
  · by_cases hst : st = 200 ∨ st = 201 <;> simp [hst]
  · intro hst; simp [hst]
  · intro hst; rw [heq]; simp [hst]
  · intro hst; rw [heq]; simp [hst]

/-- Witness for C5: the spec's end-to-end example — a stubbed exchange
returning `201 {"id": "X"}` yields a 200 `{status: "ok", code: 201,
response: {"id": "X"}}` reply and one record with status `"placed"`. -/
theorem placement_record_and_response_witness :
    ∃ r : AlertRecord,
      (tradingview_webhook testCfg (.resp 201 (some (.obj [("id", .str "X")]))
          "stub") 5 freshDb validRaw).2.1.alerts = freshDb.alerts ++ [r] ∧
      (r.status = "placed" ↔ (201 = 200 ∨ 201 = 201)) ∧
      (¬(201 = 200 ∨ 201 = 201) → r.status = "attempted") ∧
      ((201 = 200 ∨ 201 = 201) →
        (tradingview_webhook testCfg (.resp 201 (some (.obj [("id", .str "X")]))
            "stub") 5 freshDb validRaw).1 =
          .ok (200, okResp 201 ((some (J.obj [("id", .str "X")])).elim
            (RB.text "stub") RB.json))) ∧
      (¬(201 = 200 ∨ 201 = 201) →
        (tradingview_webhook testCfg (.resp 201 (some (.obj [("id", .str "X")]))
            "stub") 5 freshDb validRaw).1 =
          .ok (500, errResp 201 ((some (J.obj [("id", .str "X")])).elim
            (RB.text "stub") RB.json))) :=
  placement_record_and_response testCfg 201 (some (.obj [("id", .str "X")]))
    "stub" 5 freshDb validRaw "BTC-USD" "buy" "10" 10 []
    (by decide) rfl rfl rfl (by decide) rfl (by decide) rfl (by decide)
    (by with_unfolding_all decide)
    (by with_unfolding_all decide)
    (by with_unfolding_all decide)
    rfl

/-! ### Claim C4: side-effect frame (corrected) -/

/-- Steps 1–8 of the pipeline as a predicate on the request: true iff
the request reaches order placement (the guard chain of
`tradingview_webhook` before the exchange call). -/
def passesChecks (cfg : Config) (now : ℚ) (db : DB) (rawBody : String) :
    Bool :=
  let raw := pyStripS rawBody
  if raw = "" then false
  else
    let data := parse_alert_text raw
    if dgetD data "secret" "" ≠ cfg.alert_secret then false
    else
      let tv_id := resolveTvId data
      if pyTruthyOpt tv_id && already_processed db tv_id then false
      else
        if pyFalsy (dget data "symbol") || pyFalsy (dget data "action") ||
            pyFalsy (dget data "amount") then false
        else
          match pyFloat ((dget data "amount").getD "") with
          | none => false
          | some usd_amount =>
              if usd_amount ≤ 0 ∨ cfg.max_usd_per_order < usd_amount then
                false
              else
                if now - get_last_order_ts db <
                    (cfg.min_seconds_between_orders : ℚ) then false
                else true

/-- Unpacking `passesChecks = true` into the individual step-1–8 guards. -/
theorem passesChecks_extract : ∀ (cfg : Config) (now : ℚ) (db : DB)
    (rawBody : String),
    passesChecks cfg now db rawBody = true →
    ∃ sym act amts q,
      pyStripS rawBody ≠ "" ∧
      dgetD (parse_alert_text (pyStripS rawBody)) "secret" ""
        = cfg.alert_secret ∧
      (pyTruthyOpt (resolveTvId (parse_alert_text (pyStripS rawBody))) &&
        already_processed db
          (resolveTvId (parse_alert_text (pyStripS rawBody)))) = false ∧
      dget (parse_alert_text (pyStripS rawBody)) "symbol" = some sym ∧
      sym ≠ "" ∧
      dget (parse_alert_text (pyStripS rawBody)) "action" = some act ∧
      act ≠ "" ∧
      dget (parse_alert_text (pyStripS rawBody)) "amount" = some amts ∧
      amts ≠ "" ∧
      pyFloat amts = some q ∧
      ¬(q ≤ 0 ∨ cfg.max_usd_per_order < q) ∧
      ¬(now - get_last_order_ts db <
        (cfg.min_seconds_between_orders : ℚ)) := by
  intro cfg now db rawBody hp
  simp only [passesChecks] at hp
  repeat' split at hp
  all_goals try exact absurd hp Bool.false_ne_true
  rename_i hne hsec hdup hfields x usd heq hbounds hrate
  have hdsym : ∃ s, dget (parse_alert_text (pyStripS rawBody)) "symbol"
      = some s ∧ s ≠ "" := by
    cases hd : dget (parse_alert_text (pyStripS rawBody)) "symbol" with
    | none => exact absurd (by simp [pyFalsy, hd]) hfields
    | some s =>
        exact ⟨s, rfl, fun h => hfields (by simp [pyFalsy, hd, h])⟩
  have hdact : ∃ s, dget (parse_alert_text (pyStripS rawBody)) "action"
      = some s ∧ s ≠ "" := by
    cases hd : dget (parse_alert_text (pyStripS rawBody)) "action" with
    | none => exact absurd (by simp [pyFalsy, hd]) hfields
    | some s =>
        exact ⟨s, rfl, fun h => hfields (by simp [pyFalsy, hd, h])⟩
  have hdamt : ∃ s, dget (parse_alert_text (pyStripS rawBody)) "amount"
      = some s ∧ s ≠ "" := by
    cases hd : dget (parse_alert_text (pyStripS rawBody)) "amount" with
    | none => exact absurd (by simp [pyFalsy, hd]) hfields
    | some s =>
        exact ⟨s, rfl, fun h => hfields (by simp [pyFalsy, hd, h])⟩
  obtain ⟨sym, hdsym, hsymne⟩ := hdsym
  obtain ⟨act, hdact, hactne⟩ := hdact
  obtain ⟨amts, hdamt, hamtsne⟩ := hdamt
  rw [hdamt, Option.getD_some] at heq
  exact ⟨sym, act, amts, usd, hne, not_not.mp hsec,
    by simpa using hdup, hdsym, hsymne, hdact, hactne, hdamt, hamtsne,
    heq, hbounds, hrate⟩

/-- A request rejected at steps 1–8 leaves the store untouched and
performs no effect. -/
theorem handler_rejected (cfg : Config) (tp : Transport) (now : ℚ) (db : DB)
    (rawBody : String) (hp : passesChecks cfg now db rawBody = false) :
    (tradingview_webhook cfg tp now db rawBody).2.2 = [] ∧
    (tradingview_webhook cfg tp now db rawBody).2.1 = db := by
  simp only [passesChecks] at hp
  repeat' split at hp
  all_goals try exact (Bool.noConfusion hp)
  all_goals simp [tradingview_webhook, *]

/-- The signer raises when the secret is not base64. -/
theorem cb_auth_headers_b64none (cfg : Config)
    (tsStr method path body : String)
    (h : b64decode cfg.api_secret = none) :
    cb_auth_headers cfg tsStr method path body = none := by
  unfold cb_auth_headers
  rw [h]

/-- The gateway raises before any network call when the secret is not
base64 (no call effect at all). -/
theorem place_badb64 (cfg : Config) (tp : Transport)
    (tsStr pid side : String) (usd : ℚ)
    (h : b64decode cfg.api_secret = none) :
    place_market_order_by_funds cfg tp tsStr pid side usd =
      (.error .badBase64Secret, []) := by
  simp only [place_market_order_by_funds]
  rw [cb_auth_headers_b64none _ _ _ _ _ h]

/-- Full evaluation of the handler on a passing request whose signer
raises `binascii.Error` (invalid base64 API secret). -/
theorem handler_badb64_run
    (cfg : Config) (tp : Transport) (now : ℚ) (db : DB)
    (rawBody sym act amts : String) (q : ℚ)
    (hne : pyStripS rawBody ≠ "")
    (hsec : dgetD (parse_alert_text (pyStripS rawBody)) "secret" ""
      = cfg.alert_secret)
    (hdup : (pyTruthyOpt (resolveTvId (parse_alert_text (pyStripS rawBody))) &&
      already_processed db (resolveTvId (parse_alert_text (pyStripS rawBody))))
        = false)
    (hsym : dget (parse_alert_text (pyStripS rawBody)) "symbol" = some sym)
    (hsymne : sym ≠ "")
    (hact : dget (parse_alert_text (pyStripS rawBody)) "action" = some act)
    (hactne : act ≠ "")
    (hamts : dget (parse_alert_text (pyStripS rawBody)) "amount" = some amts)
    (hamtsne : amts ≠ "")
    (hq : pyFloat amts = some q)
    (hbounds : ¬(q ≤ 0 ∨ cfg.max_usd_per_order < q))
    (hrate : ¬(now - get_last_order_ts db <
      (cfg.min_seconds_between_orders : ℚ)))
    (hkey : b64decode cfg.api_secret = none) :
    tradingview_webhook cfg tp now db rawBody =
      (.error .badBase64Secret, db, []) := by
  simp only [tradingview_webhook]
  rw [if_neg hne, if_neg (not_not_intro hsec), if_neg (by simp [hdup]),
    if_neg (by simp [hsym, hact, hamts, pyFalsy, hsymne, hactne, hamtsne])]
  simp only [hsym, hact, hamts, Option.getD_some, hq]
  rw [if_neg hbounds, if_neg hrate]
  rw [place_badb64 cfg tp (pyIntStr now) sym
    (if pyStartsWith "buy".data (act.data.map pyLowerChar)
     then "buy" else "sell") q hkey]

/-- Full evaluation of the handler on a passing request whose exchange
call raises a network exception. -/
theorem handler_exn_run
    (cfg : Config) (e : NetErr) (now : ℚ) (db : DB)
    (rawBody sym act amts : String) (q : ℚ) (key : List ℕ)
    (hne : pyStripS rawBody ≠ "")
    (hsec : dgetD (parse_alert_text (pyStripS rawBody)) "secret" ""
      = cfg.alert_secret)
    (hdup : (pyTruthyOpt (resolveTvId (parse_alert_text (pyStripS rawBody))) &&
      already_processed db (resolveTvId (parse_alert_text (pyStripS rawBody))))
        = false)
    (hsym : dget (parse_alert_text (pyStripS rawBody)) "symbol" = some sym)
    (hsymne : sym ≠ "")
    (hact : dget (parse_alert_text (pyStripS rawBody)) "action" = some act)
    (hactne : act ≠ "")
    (hamts : dget (parse_alert_text (pyStripS rawBody)) "amount" = some amts)
    (hamtsne : amts ≠ "")
    (hq : pyFloat amts = some q)
    (hbounds : ¬(q ≤ 0 ∨ cfg.max_usd_per_order < q))
    (hrate : ¬(now - get_last_order_ts db <
      (cfg.min_seconds_between_orders : ℚ)))
    (hkey : b64decode cfg.api_secret = some key) :
    tradingview_webhook cfg (.exn e) now db rawBody =
      (.error (.net e), db,
       [.call sym
          (if pyStartsWith "buy".data (act.data.map pyLowerChar)
           then "buy" else "sell") (pyRound2 q)]) := by
  simp only [tradingview_webhook]
  rw [if_neg hne, if_neg (not_not_intro hsec), if_neg (by simp [hdup]),
    if_neg (by simp [hsym, hact, hamts, pyFalsy, hsymne, hactne, hamtsne])]
  simp only [hsym, hact, hamts, Option.getD_some, hq]
  rw [if_neg hbounds, if_neg hrate]
  rw [place_exn cfg (pyIntStr now) sym
    (if pyStartsWith "buy".data (act.data.map pyLowerChar)
     then "buy" else "sell") q e key hkey]

/-- C4 (amended): a request rejected at steps 1–8 performs no AuditStore
insert and no checkpoint write (and leaves the store untouched); a
request that passes steps 1–8 performs exactly one insert and one
checkpoint write whenever the exchange call yields an HTTP response
(whatever its status code); if instead the transport raises, the
exception propagates and no insert or checkpoint write happens. -/
theorem webhook_side_effects_frame :
    (∀ (cfg : Config) (tp : Transport) (now : ℚ) (db : DB) (rawBody : String),
        passesChecks cfg now db rawBody = false →
        (tradingview_webhook cfg tp now db rawBody).2.2 = [] ∧
        (tradingview_webhook cfg tp now db rawBody).2.1 = db) ∧
    (∀ (cfg : Config) (st : ℕ) (jb : Option J) (tx : String) (now : ℚ)
        (db : DB) (rawBody : String) (key : List ℕ),
        passesChecks cfg now db rawBody = true →
        b64decode cfg.api_secret = some key →
        countInserts
          (tradingview_webhook cfg (.resp st jb tx) now db rawBody).2.2 = 1 ∧
        countCheckpoints
          (tradingview_webhook cfg (.resp st jb tx) now db rawBody).2.2 = 1) ∧
    (∀ (cfg : Config) (e : NetErr) (now : ℚ) (db : DB) (rawBody : String)
        (key : List ℕ),
        passesChecks cfg now db rawBody = true →
        b64decode cfg.api_secret = some key →
        (tradingview_webhook cfg (.exn e) now db rawBody).1 =
          .error (.net e) ∧
        countInserts
          (tradingview_webhook cfg (.exn e) now db rawBody).2.2 = 0 ∧
        countCheckpoints
          (tradingview_webhook cfg (.exn e) now db rawBody).2.2 = 0 ∧
        (tradingview_webhook cfg (.exn e) now db rawBody).2.1 = db) := by
  refine ⟨fun cfg tp now db rawBody hp =>
    handler_rejected cfg tp now db rawBody hp, ?_, ?_⟩
  · intro cfg st jb tx now db rawBody key hp hkey
    obtain ⟨sym, act, amts, q, hne, hsec, hdup, hsym, hsymne, hact, hactne,
      hamts, hamtsne, hq, hbounds, hrate⟩ :=
      passesChecks_extract cfg now db rawBody hp
    rw [handler_placement cfg st jb tx now db rawBody sym act amts q key
      hne hsec hdup hsym hsymne hact hactne hamts hamtsne hq hbounds hrate
      hkey]
    exact ⟨rfl, rfl⟩
  · intro cfg e now db rawBody key hp hkey
    obtain ⟨sym, act, amts, q, hne, hsec, hdup, hsym, hsymne, hact, hactne,
      hamts, hamtsne, hq, hbounds, hrate⟩ :=
      passesChecks_extract cfg now db rawBody hp
    rw [handler_exn_run cfg e now db rawBody sym act amts q key
      hne hsec hdup hsym hsymne hact hactne hamts hamtsne hq hbounds hrate
      hkey]
    exact ⟨rfl, rfl, rfl, rfl⟩

set_option maxHeartbeats 1000000 in
/-- C4 counterexample: a fully valid request (it passes steps 1–8 and
reaches order placement) whose exchange call times out performs *zero*
AuditStore inserts and zero checkpoint writes — refuting "exactly one
insert and one checkpoint write … regardless of the exchange outcome". -/
theorem webhook_frame_exn_no_insert :
    passesChecks testCfg 5 freshDb validRaw = true ∧
    countInserts
      (tradingview_webhook testCfg (.exn .timeout) 5 freshDb validRaw).2.2
      = 0 ∧
    countCheckpoints
      (tradingview_webhook testCfg (.exn .timeout) 5 freshDb validRaw).2.2
      = 0 := by
  refine ⟨?_, ?_, ?_⟩ <;> with_unfolding_all decide

set_option maxHeartbeats 1000000 in
/-- Witness for C4 (amended): a request with a wrong secret does
nothing; the valid request with the 201 stub does exactly one insert
and one checkpoint write; with a timeout it does neither. -/
theorem webhook_side_effects_frame_witness :
    (passesChecks testCfg 5 freshDb "secret: wrong" = false ∧
      (tradingview_webhook testCfg tpOK 5 freshDb "secret: wrong").2.2 = [] ∧
      (tradingview_webhook testCfg tpOK 5 freshDb "secret: wrong").2.1 =
        freshDb) ∧
    (passesChecks testCfg 5 freshDb validRaw = true ∧
      countInserts
        (tradingview_webhook testCfg (.resp 201 (some (.obj [("id", .str "X")]))
          "stub") 5 freshDb validRaw).2.2 = 1 ∧
      countCheckpoints
        (tradingview_webhook testCfg (.resp 201 (some (.obj [("id", .str "X")]))
          "stub") 5 freshDb validRaw).2.2 = 1) ∧
    ((tradingview_webhook testCfg (.exn .timeout) 5 freshDb validRaw).1 =
        .error (.net .timeout) ∧
      (tradingview_webhook testCfg (.exn .timeout) 5 freshDb validRaw).2.1 =
        freshDb) := by
  refine ⟨⟨rfl, ?_⟩, ?_, ?_, ?_⟩
  · exact webhook_side_effects_frame.1 testCfg tpOK 5 freshDb "secret: wrong"
      rfl
  · refine ⟨?_, ?_⟩
    · with_unfolding_all decide
    · exact webhook_side_effects_frame.2.1 testCfg 201
        (some (.obj [("id", .str "X")])) "stub" 5 freshDb validRaw []
        (by with_unfolding_all decide) rfl
  · exact (webhook_side_effects_frame.2.2 testCfg .timeout 5 freshDb
      validRaw [] (by with_unfolding_all decide) rfl).1
  · exact (webhook_side_effects_frame.2.2 testCfg .timeout 5 freshDb
      validRaw [] (by with_unfolding_all decide) rfl).2.2.2

/-! ### Claim C3: idempotency by external id -/

/-- Shape of any single handler run: either no effects and an untouched
store; or exactly one outbound call (transport raised) and an untouched
store; or one call, one insert and one checkpoint, where the inserted
record carries the request's resolved id and the request passed the
empty-body and secret steps. -/
theorem run_shape (cfg : Config) (tp : Transport) (now : ℚ) (db : DB)
    (rawBody : String) (res : Except PlaceErr (ℕ × J)) (db' : DB)
    (effs : List Effect)
    (h : tradingview_webhook cfg tp now db rawBody = (res, db', effs)) :
    (effs = [] ∧ db' = db) ∨
    (∃ p s f, effs = [.call p s f] ∧ db' = db) ∨
    (∃ p s f r, effs = [.call p s f, .insert r, .checkpoint (pyFloatStr now)]
      ∧ db' = set_last_order_ts (insert_alert db r) now
      ∧ r.tv_id = resolveTvId (parse_alert_text (pyStripS rawBody))
      ∧ pyStripS rawBody ≠ ""
      ∧ dgetD (parse_alert_text (pyStripS rawBody)) "secret" ""
          = cfg.alert_secret) := by
  by_cases hp : passesChecks cfg now db rawBody = true
  · obtain ⟨sym, act, amts, q, hne, hsec, hdup, hsym, hsymne, hact, hactne,
      hamts, hamtsne, hq, hbounds, hrate⟩ :=
      passesChecks_extract cfg now db rawBody hp
    cases hb : b64decode cfg.api_secret with
    | none =>
        rw [handler_badb64_run cfg tp now db rawBody sym act amts q
          hne hsec hdup hsym hsymne hact hactne hamts hamtsne hq hbounds
          hrate hb] at h
        simp only [Prod.mk.injEq] at h
        exact Or.inl ⟨h.2.2.symm, h.2.1.symm⟩
    | some key =>
        cases tp with
        | exn e =>
            rw [handler_exn_run cfg e now db rawBody sym act amts q key
              hne hsec hdup hsym hsymne hact hactne hamts hamtsne hq hbounds
              hrate hb] at h
            simp only [Prod.mk.injEq] at h
            exact Or.inr (Or.inl ⟨_, _, _, h.2.2.symm, h.2.1.symm⟩)
        | resp st jb tx =>
            rw [handler_placement cfg st jb tx now db rawBody sym act amts q
              key hne hsec hdup hsym hsymne hact hactne hamts hamtsne hq
              hbounds hrate hb] at h
            simp only [Prod.mk.injEq] at h
            exact Or.inr (Or.inr ⟨_, _, _, _, h.2.2.symm, h.2.1.symm, rfl,
              hne, hsec⟩)
  · have hrej := handler_rejected cfg tp now db rawBody (by simpa using hp)
    rw [h] at hrej
    exact Or.inl ⟨hrej.1, hrej.2⟩

/-- C3: when the store already holds a record with external id `t`, a
request resolving to `t` (that passed the empty-body and secret steps,
which precede the dedupe step) is answered
409 `{error: "duplicate alert", tv_id}` with no new record and no
exchange call; hence two sequential deliveries of the same id — the
first of which was processed and recorded — produce exactly one
AlertRecord and one exchange call in total, the second being 409. -/
theorem duplicate_alert_idempotency :
    (∀ (cfg : Config) (tp : Transport) (now : ℚ) (db : DB)
        (rawBody t : String),
        pyStripS rawBody ≠ "" →
        dgetD (parse_alert_text (pyStripS rawBody)) "secret" ""
          = cfg.alert_secret →
        resolveTvId (parse_alert_text (pyStripS rawBody)) = some t →
        (db.alerts.any (fun r => r.tv_id = some t)) = true →
        tradingview_webhook cfg tp now db rawBody =
          (.ok (409, duplicateResp t), db, [])) ∧
    (∀ (cfg : Config) (tp tp' : Transport) (now now' : ℚ) (db : DB)
        (rawBody t : String),
        resolveTvId (parse_alert_text (pyStripS rawBody)) = some t →
        countInserts (tradingview_webhook cfg tp now db rawBody).2.2 = 1 →
        (tradingview_webhook cfg tp' now'
            (tradingview_webhook cfg tp now db rawBody).2.1 rawBody =
          (.ok (409, duplicateResp t),
           (tradingview_webhook cfg tp now db rawBody).2.1, [])) ∧
        countInserts ((tradingview_webhook cfg tp now db rawBody).2.2 ++
          (tradingview_webhook cfg tp' now'
            (tradingview_webhook cfg tp now db rawBody).2.1 rawBody).2.2)
          = 1 ∧
        countCalls ((tradingview_webhook cfg tp now db rawBody).2.2 ++
          (tradingview_webhook cfg tp' now'
            (tradingview_webhook cfg tp now db rawBody).2.1 rawBody).2.2)
          = 1) := by
  have part1 : ∀ (cfg : Config) (tp : Transport) (now : ℚ) (db : DB)
      (rawBody t : String),
      pyStripS rawBody ≠ "" →
      dgetD (parse_alert_text (pyStripS rawBody)) "secret" ""
        = cfg.alert_secret →
      resolveTvId (parse_alert_text (pyStripS rawBody)) = some t →
      (db.alerts.any (fun r => r.tv_id = some t)) = true →
      tradingview_webhook cfg tp now db rawBody =
        (.ok (409, duplicateResp t), db, []) := by
    intro cfg tp now db rawBody t hne hsec hid hany
    have ht : t ≠ "" := resolveTvId_some_ne _ _ hid
    have hap : already_processed db (some t) = true := by
      simp only [already_processed]
      rw [if_neg ht]
      exact hany
    exact handler_dup cfg tp now db rawBody t hne hsec hid hap
  refine ⟨part1, ?_⟩
  intro cfg tp tp' now now' db rawBody t hid hcount
  rcases hrun : tradingview_webhook cfg tp now db rawBody with ⟨r1, d1, e1⟩
  rw [hrun] at hcount
  have hcount2 : countInserts e1 = 1 := hcount
  simp only [hrun]
  rcases run_shape cfg tp now db rawBody r1 d1 e1 hrun with
    ⟨he, hd⟩ | ⟨p, s, f, he, hd⟩ | ⟨p, s, f, r, he, hd, hrtv, hne, hsec⟩
  · rw [he] at hcount2
    exact absurd hcount2 (by decide)
  · rw [he] at hcount2
    have h0 : countInserts [Effect.call p s f] = 0 := rfl
    omega
  · have ht : t ≠ "" := resolveTvId_some_ne _ _ hid
    rw [hid] at hrtv
    have hap : already_processed d1 (some t) = true := by
      rw [hd]
      simp only [already_processed]
      rw [if_neg ht]
      simp [set_last_order_ts, insert_alert, hrtv]
    have hdup2 := handler_dup cfg tp' now' d1 rawBody t hne hsec hid hap
    refine ⟨hdup2, ?_, ?_⟩
    · rw [hdup2, he]
      rfl
    · rw [hdup2, he]
      rfl

/-- Witness for C3: a store holding id `T1` answers 409 to a request
with `tv_id: T1`; and two sequential deliveries of the same `tv_id: T1`
request against a fresh store yield one insert and one call in total,
the second being 409. -/
theorem duplicate_alert_idempotency_witness :
    (tradingview_webhook testCfg tpOK 6
        { alerts := [{ tv_id := some "T1", raw := "r", symbol := "BTC-USD",
                       action := "buy", amount := 10, status := "placed",
                       response := J.nul }], meta := none }
        "secret: changeme; symbol: BTC-USD; action: buy; amount: 10; tv_id: T1"
      = (.ok (409, duplicateResp "T1"),
         { alerts := [{ tv_id := some "T1", raw := "r", symbol := "BTC-USD",
                        action := "buy", amount := 10, status := "placed",
                        response := J.nul }], meta := none }, [])) ∧
    ((tradingview_webhook testCfg tpOK 6
        (tradingview_webhook testCfg tpOK 5 freshDb
          "secret: changeme; symbol: BTC-USD; action: buy; amount: 10; tv_id: T1").2.1
        "secret: changeme; symbol: BTC-USD; action: buy; amount: 10; tv_id: T1"
      = (.ok (409, duplicateResp "T1"),
         (tradingview_webhook testCfg tpOK 5 freshDb
           "secret: changeme; symbol: BTC-USD; action: buy; amount: 10; tv_id: T1").2.1,
         [])) ∧
      countInserts ((tradingview_webhook testCfg tpOK 5 freshDb
          "secret: changeme; symbol: BTC-USD; action: buy; amount: 10; tv_id: T1").2.2 ++
        (tradingview_webhook testCfg tpOK 6
          (tradingview_webhook testCfg tpOK 5 freshDb
            "secret: changeme; symbol: BTC-USD; action: buy; amount: 10; tv_id: T1").2.1
          "secret: changeme; symbol: BTC-USD; action: buy; amount: 10; tv_id: T1").2.2)
        = 1 ∧
      countCalls ((tradingview_webhook testCfg tpOK 5 freshDb
          "secret: changeme; symbol: BTC-USD; action: buy; amount: 10; tv_id: T1").2.2 ++
        (tradingview_webhook testCfg tpOK 6
          (tradingview_webhook testCfg tpOK 5 freshDb
            "secret: changeme; symbol: BTC-USD; action: buy; amount: 10; tv_id: T1").2.1
          "secret: changeme; symbol: BTC-USD; action: buy; amount: 10; tv_id: T1").2.2)
        = 1) :=
  ⟨duplicate_alert_idempotency.1 testCfg tpOK 6 _
      "secret: changeme; symbol: BTC-USD; action: buy; amount: 10; tv_id: T1"
      "T1" (by decide) rfl rfl rfl,
   duplicate_alert_idempotency.2 testCfg tpOK tpOK 5 6 freshDb
      "secret: changeme; symbol: BTC-USD; action: buy; amount: 10; tv_id: T1"
      "T1" rfl (by with_unfolding_all decide)⟩

end Webhook
